import Mathlib

/-!
Verification of the lossless_player music library indexer, cache and player
(src/music_library.py, src/config.py, src/player.py) against its
natural-language specification.

Python strings are modelled as `List Char` (named `Str`), Python dicts as
insertion-ordered association lists, Python sets as insertion-ordered
deduplicated lists wrapped in `PySet`.  Machine integers are `Int`/`Nat`
with explicit wrap-around where overflow matters (the 64-bit hash state).
Fallible operations return `Except`/`Option`.
-/

/-- Model of a Python `str`: a finite sequence of characters. -/
abbrev Str := List Char

/-- Python `str.lower()` (per-character lowering, as for the ASCII data here). -/
def py_lower (s : Str) : Str := s.map Char.toLower

/-- Python `needle in hay` on strings: contiguous-substring test. -/
def py_in (needle hay : Str) : Bool := decide (needle <:+: hay)

/-- Python `s.startswith(pat)`. -/
def py_startswith (s pat : Str) : Bool := decide (pat <+: s)

/-- Python `s.endswith(pat)`. -/
def py_endswith (s pat : Str) : Bool := decide (pat <:+ s)

/-- Python `s.replace(pat, "")` as used in `_process_audio_file`
(line 166 of music_library.py): delete every non-overlapping occurrence
of `pat` in `s`, scanning left to right.  (For the unused corner case of
an empty pattern the model returns `s` unchanged, which agrees with
CPython when the replacement text is empty.) -/
def py_replace_go (fuel : Nat) (s pat : Str) : Str :=
  match fuel, s with
  | 0, s => s
  | _ + 1, [] => []
  | fuel + 1, c :: rest =>
    if pat ≠ [] ∧ pat <+: (c :: rest) then
      py_replace_go fuel ((c :: rest).drop pat.length) pat
    else
      c :: py_replace_go fuel rest pat

/-- Entry point of the replacement scan; a fuel of `s.length` always
suffices, as each step consumes at least one character. -/
def py_replace (s pat : Str) : Str := py_replace_go s.length s pat

/-- Python `os.path.basename` for the slash-separated absolute paths used
here: the part after the last `/`. -/
def py_basename (p : Str) : Str := (p.splitOn '/').getLastD []

/-- Lookup in a Python dict modelled as an insertion-ordered association
list (first, and by construction only, binding of the key). -/
def dlookup (k : Str) : List (Str × β) → Option β
  | [] => none
  | (k₁, v) :: rest => if k₁ = k then some v else dlookup k rest

/-- Python `d[k] = v`: update in place if the key is present, else append
(dicts preserve insertion order). -/
def dinsert (k : Str) (v : β) : List (Str × β) → List (Str × β)
  | [] => [(k, v)]
  | (k₁, v₁) :: rest =>
    if k₁ = k then (k₁, v) :: rest else (k₁, v₁) :: dinsert k v rest

/-- Apply `f` to the value bound to `k`, if any (models reading and
re-assigning a dict entry in place). -/
def dmodify (k : Str) (f : β → β) : List (Str × β) → List (Str × β)
  | [] => []
  | (k₁, v) :: rest =>
    if k₁ = k then (k₁, f v) :: rest else (k₁, v) :: dmodify k f rest

/-- Model of a Python `set`, kept as an insertion-ordered list without
duplicates.  The JSON serializer has no encoder for this type. -/
structure PySet (α : Type) where
  elems : List α
  deriving DecidableEq

/-- Python `s.add(x)` on a set. -/
def pyset_add [DecidableEq α] (x : α) (s : PySet α) : PySet α :=
  if x ∈ s.elems then s else ⟨s.elems ++ [x]⟩

/-! ### The CPython string hash

`_process_audio_file` assigns `track_id = str(hash(file_path))`
(music_library.py line 174).  CPython hashes a `str` with SipHash over the
byte buffer of the string, keyed by the per-process hash secret
`(k0, k1)` that is randomized at interpreter startup unless
`PYTHONHASHSEED` pins it.  We model the current default algorithm
(siphash13, the default since CPython 3.11; earlier versions use
siphash24, which is keyed the same way).  All arithmetic is on `Nat`
reduced modulo `2 ^ 64`. -/

/-- Reduction modulo `2 ^ 64`. -/
def m64 (x : Nat) : Nat := x % 18446744073709551616

/-- 64-bit left rotation. -/
def rotl64 (x r : Nat) : Nat := m64 (x <<< r) ||| (x >>> (64 - r))

/-- The four 64-bit words of the SipHash state. -/
structure Sip where
  v0 : Nat
  v1 : Nat
  v2 : Nat
  v3 : Nat

/-- One SipHash round (the `SINGLE_ROUND` of CPython pyhash.c). -/
def sip_round (s : Sip) : Sip :=
  let v0 := m64 (s.v0 + s.v1)
  let v2 := m64 (s.v2 + s.v3)
  let v1 := rotl64 s.v1 13 ^^^ v0
  let v3 := rotl64 s.v3 16 ^^^ v2
  let v0 := rotl64 v0 32
  let v2a := m64 (v2 + v1)
  let v0a := m64 (v0 + v3)
  let v1a := rotl64 v1 17 ^^^ v2a
  let v3a := rotl64 v3 21 ^^^ v0a
  let v2b := rotl64 v2a 32
  ⟨v0a, v1a, v2b, v3a⟩

/-- Absorb one 64-bit message word. -/
def sip_update (s : Sip) (m : Nat) : Sip :=
  let s₁ := sip_round { s with v3 := s.v3 ^^^ m }
  { s₁ with v0 := s₁.v0 ^^^ m }

/-- Little-endian value of a byte list. -/
def le64 (bs : List Nat) : Nat := bs.foldr (fun b acc => b + 256 * acc) 0

/-- Absorb all full 8-byte blocks, returning the state and the trailing
partial block. -/
def sip_consume (s : Sip) : List Nat → Sip × List Nat
  | b0 :: b1 :: b2 :: b3 :: b4 :: b5 :: b6 :: b7 :: rest =>
    sip_consume (sip_update s (le64 [b0, b1, b2, b3, b4, b5, b6, b7])) rest
  | rest => (s, rest)

/-- CPython `pysiphash13(k0, k1, bytes)`. -/
def py_siphash13 (k0 k1 : Nat) (bs : List Nat) : Nat :=
  let s0 : Sip :=
    ⟨m64 k0 ^^^ 0x736f6d6570736575, m64 k1 ^^^ 0x646f72616e646f6d,
     m64 k0 ^^^ 0x6c7967656e657261, m64 k1 ^^^ 0x7465646279746573⟩
  let (s₁, rest) := sip_consume s0 bs
  let b := m64 (bs.length <<< 56) ||| le64 rest
  let s₂ := sip_update s₁ b
  let s₃ := sip_round (sip_round (sip_round { s₂ with v2 := s₂.v2 ^^^ 0xff }))
  (s₃.v0 ^^^ s₃.v1) ^^^ (s₃.v2 ^^^ s₃.v3)

/-- UTF-8 bytes of one character.  (CPython hashes the compact internal
buffer of the string; on the ASCII data appearing here the two byte
sequences coincide.) -/
def utf8_char (c : Char) : List Nat :=
  let n := c.toNat
  if n < 0x80 then [n]
  else if n < 0x800 then
    [0xC0 ||| (n >>> 6), 0x80 ||| (n &&& 0x3F)]
  else if n < 0x10000 then
    [0xE0 ||| (n >>> 12), 0x80 ||| ((n >>> 6) &&& 0x3F), 0x80 ||| (n &&& 0x3F)]
  else
    [0xF0 ||| (n >>> 18), 0x80 ||| ((n >>> 12) &&& 0x3F),
     0x80 ||| ((n >>> 6) &&& 0x3F), 0x80 ||| (n &&& 0x3F)]

/-- CPython `hash(s)` for a string `s`, keyed by the per-process hash
secret `(k0, k1)`: `0` for the empty string, else the signed 64-bit view
of the SipHash value, with `-1` mapped to `-2`. -/
def py_hash_str (k0 k1 : Nat) (s : Str) : Int :=
  if s = [] then 0
  else
    let t := py_siphash13 k0 k1 (s.flatMap utf8_char)
    let x : Int := if t < 9223372036854775808 then (t : Int) else (t : Int) - 18446744073709551616
    if x = -1 then -2 else x

/-- Line 174 of music_library.py: `track_id = str(hash(file_path))`.
The id depends on the per-process hash secret, not on the path alone. -/
def track_id_of (k0 k1 : Nat) (path : Str) : Str :=
  (toString (py_hash_str k0 k1 path)).data

/-! ### Data model

The structures mirror the dict shapes built by music_library.py:
`track_info` (lines 111-120), the album dicts (lines 186-192), the artist
dicts (lines 199-204) and the four fields of the `MusicLibrary` object
(lines 21-24). -/

/-- One `track_info` dict. -/
structure TrackInfo where
  path : Str
  filename : Str
  size : Nat
  album : Str
  artist : Str
  title : Str
  trackNumber : Int
  duration : Int
  deriving DecidableEq

/-- One entry of `self.albums`. -/
structure AlbumInfo where
  name : Str
  artist : Str
  tracks : List Str
  trackCount : Int
  deriving DecidableEq

/-- One entry of `self.artists`; `albums` is a Python `set` (line 202). -/
structure ArtistInfo where
  name : Str
  albums : PySet Str
  tracks : List Str
  deriving DecidableEq

/-- The mutable state of a `MusicLibrary` object. -/
structure LibState where
  library : List (Str × TrackInfo)
  albums : List (Str × AlbumInfo)
  artists : List (Str × ArtistInfo)
  indexedTime : Int
  deriving DecidableEq

/-- A `MusicLibrary` as constructed before any cache load. -/
def empty_lib : LibState := ⟨[], [], [], 0⟩

/-- Tag data as delivered by mutagen for one file, i.e. the contents of
`track_info` after the per-format extraction (lines 122-162) and before
the path fallback.  `none` models `MutagenFile` returning `None` or the
per-file extraction raising (caught and logged at lines 83-84 / 177-178,
so the file is skipped). -/
structure RawTags where
  album : Str
  artist : Str
  title : Str
  trackNumber : Int
  duration : Int
  deriving DecidableEq

/-- One regular file produced by the `os.walk` over the mount point:
its joined absolute path, its basename as yielded by the walk, its size,
and the extraction outcome. -/
structure FileEntry where
  path : Str
  name : Str
  size : Nat
  tags : Option RawTags
  deriving DecidableEq

/-- The external environment of one `index_library` call: mount outcome,
current time, the files found by the walk, and whether the aggregation
phase raises an unexpected exception (`_organize_library` is executed
outside any try/except, so the model must account for a failure arising
there; the per-file loop, in contrast, catches its own errors). -/
structure IndexEnv where
  mountOk : Bool
  now : Int
  files : List FileEntry
  aggFails : Bool

/-- JSON values, as read back by `json.load`. -/
inductive Json where
  | str (s : Str)
  | int (n : Int)
  | arr (xs : List Json)
  | obj (fields : List (Str × Json))

/-- The persisted cache file: `none` when no file exists, `some none`
when the contents do not parse as JSON, `some (some j)` when they parse
to `j`. -/
def Disk := Option (Option Json)

/-- Value of `str(MOUNT_POINT)` from config.py (`/home/jay/music_server`). -/
def MOUNT : Str := "/home/jay/music_server".data

/-! ### MusicLibraryCache (config.py lines 47-70) -/

/-- JSON encoding of one track dict (all fields are JSON-serializable). -/
def encode_track (t : TrackInfo) : Json :=
  .obj [("path".data, .str t.path), ("filename".data, .str t.filename),
        ("size".data, .int t.size), ("album".data, .str t.album),
        ("artist".data, .str t.artist), ("title".data, .str t.title),
        ("track_number".data, .int t.trackNumber),
        ("duration".data, .int t.duration)]

/-- JSON encoding of one album dict (name, artist, track-id list, count). -/
def encode_album (al : AlbumInfo) : Json :=
  .obj [("name".data, .str al.name), ("artist".data, .str al.artist),
        ("tracks".data, .arr (al.tracks.map .str)),
        ("track_count".data, .int al.trackCount)]

/-- JSON encoding of one artist dict.  The `albums` field holds a Python
`set`, for which `json.dump` has no encoder: it raises `TypeError`, so no
artist dict is serializable. -/
def encode_artist (_ : ArtistInfo) : Option Json := none

/-- Encode a dict of values, failing as soon as one value fails. -/
def encode_dict (enc : β → Option Json) (d : List (Str × β)) : Option Json :=
  (d.mapM (fun kv => (enc kv.2).map (fun j => (kv.1, j)))).map Json.obj

/-- The `cache_data` dict built by `save_cache` (music_library.py lines
41-46), encoded to JSON; `none` when `json.dump` raises. -/
def encode_cache_data (s : LibState) : Option Json :=
  (encode_dict encode_artist s.artists).map (fun arts =>
    .obj [("tracks".data, .obj (s.library.map (fun kv => (kv.1, encode_track kv.2)))),
          ("albums".data, .obj (s.albums.map (fun kv => (kv.1, encode_album kv.2)))),
          ("artists".data, arts),
          ("indexed_time".data, .int s.indexedTime)])

/-- `MusicLibraryCache.save` (config.py lines 63-70).  The file is opened
for writing (truncated) and `json.dump` streams into it; if the dump
raises, the exception is caught and logged, and the file is left holding
a truncated prefix of the dump, which is not valid JSON. -/
def cache_save (s : LibState) (_ : Disk) : Disk :=
  match encode_cache_data s with
  | some j => some (some j)
  | none => some none

/-- `MusicLibraryCache.load` (config.py lines 50-61): empty dict when the
file does not exist, empty dict when `json.load` raises
`JSONDecodeError` (logged, not re-raised), otherwise whatever JSON value
the file holds, with no structural validation. -/
def cache_load (d : Disk) : Json :=
  match d with
  | none => .obj []
  | some none => .obj []
  | some (some j) => j

/-- Truth value of `cache_load` being the empty library, i.e. whether the
returned dict is falsy (the check `if cache_data:` in `load_cache`). -/
def is_empty_dict : Json → Bool
  | .obj [] => true
  | _ => false

/-- Whether a loaded JSON value is even a dict (any non-dict value is
structurally invalid as a persisted library). -/
def is_dict : Json → Bool
  | .obj _ => true
  | _ => false

/-! ### MusicLibrary operations (music_library.py) -/

/-- Lines 164-171 of `_process_audio_file`: when the extracted album or
artist is empty, derive them from the path.  The code deletes every
occurrence of `str(MOUNT_POINT)` from the absolute path, splits the rest
on `os.sep`, and when the split list has at least 3 elements takes the
third-from-last element as artist and the second-from-last as album,
each only if still empty.  Returns the (album, artist) pair. -/
def metadata_fallback (filePath album artist : Str) : Str × Str :=
  if album = [] ∨ artist = [] then
    let parts := (py_replace filePath MOUNT).splitOn '/'
    if 3 ≤ parts.length then
      let artist₁ := if artist = [] then parts.getD (parts.length - 3) [] else artist
      let album₁ := if album = [] then parts.getD (parts.length - 2) [] else album
      (album₁, artist₁)
    else (album, artist)
  else (album, artist)

/-- `_process_audio_file` (lines 97-178), with the mutagen extraction of
lines 105-162 supplied as the `tags` field of the file entry: skip hidden
files and files whose extraction failed, apply the metadata fallback,
then store the track under `str(hash(file_path))`. -/
def process_audio_file (k0 k1 : Nat) (s : LibState) (f : FileEntry) : LibState :=
  let filename := py_basename f.path
  if py_startswith filename ".".data || py_startswith filename "._".data then s
  else
    match f.tags with
    | none => s
    | some t =>
      let pair := metadata_fallback f.path t.album t.artist
      let info : TrackInfo :=
        { path := f.path, filename := filename, size := f.size,
          album := pair.1, artist := pair.2, title := t.title,
          trackNumber := t.trackNumber, duration := t.duration }
      { s with library := dinsert (track_id_of k0 k1 f.path) info s.library }

/-- The supported audio extensions (line 70). -/
def supported_extensions : List Str :=
  [".flac".data, ".mp3".data, ".wav".data, ".aac".data,
   ".m4a".data, ".ogg".data, ".alac".data]

/-- The walk body, lines 74-84: skip names beginning with `._`, process
files whose lowercased name ends in a supported extension (errors inside
the per-file processing are caught and logged there). -/
def walk_step (k0 k1 : Nat) (s : LibState) (f : FileEntry) : LibState :=
  if py_startswith f.name "._".data then s
  else if supported_extensions.any (fun ext => py_endswith (py_lower f.name) ext) then
    process_audio_file k0 k1 s f
  else s

/-- Lines 182-207 of `_organize_library`: merge one track into the album
and artist dicts. -/
def organize_track (albums : List (Str × AlbumInfo)) (artists : List (Str × ArtistInfo))
    (trackId : Str) (track : TrackInfo) :
    List (Str × AlbumInfo) × List (Str × ArtistInfo) :=
  let albumKey := py_lower (track.artist ++ " - ".data ++ track.album)
  let albums₁ :=
    if (dlookup albumKey albums).isSome then albums
    else dinsert albumKey ⟨track.album, track.artist, [], 0⟩ albums
  let albums₂ := dmodify albumKey
    (fun al => { al with tracks := al.tracks ++ [trackId],
                         trackCount := al.trackCount + 1 }) albums₁
  let artistKey := py_lower track.artist
  let artists₁ :=
    if (dlookup artistKey artists).isSome then artists
    else dinsert artistKey ⟨track.artist, ⟨[]⟩, []⟩ artists
  let artists₂ := dmodify artistKey
    (fun ar => { ar with albums := pyset_add albumKey ar.albums,
                         tracks := ar.tracks ++ [trackId] }) artists₁
  (albums₂, artists₂)

/-- The grouping loop of `_organize_library` (lines 182-207), iterating
the track dict in insertion order. -/
def organize_pass (s : LibState) : LibState :=
  let p := s.library.foldl
    (fun (p : List (Str × AlbumInfo) × List (Str × ArtistInfo)) kv =>
      organize_track p.1 p.2 kv.1 kv.2)
    (s.albums, s.artists)
  { s with albums := p.1, artists := p.2 }

/-- The sort key of lines 209-211: the track number of the referenced
track (every id appended by the grouping loop is a key of `library`;
the model returns 0 for an absent id, a case the indexing flow never
produces). -/
def track_num_of (lib : List (Str × TrackInfo)) (tid : Str) : Int :=
  ((dlookup tid lib).map (fun t => t.trackNumber)).getD 0

/-- Lines 209-211: stable-sort the track list of every album by track
number.  CPython `list.sort(key=...)` is a stable sort, and any stable
sort of the same total preorder computes the same list, so it is embedded
as the stable `List.insertionSort`. -/
def sort_album_tracks (s : LibState) : LibState :=
  { s with albums := s.albums.map (fun kv =>
      (kv.1, { kv.2 with tracks := (kv.2.tracks.insertionSort
        (fun i j => track_num_of s.library i ≤ track_num_of s.library j)) })) }

/-- `_organize_library` (lines 180-211). -/
def organize_library (s : LibState) : LibState :=
  sort_album_tracks (organize_pass s)

/-- `index_library` (lines 50-95).  The result models the Python call:
`Except.error` is an exception escaping the method, carrying the object
state and cache file at that moment; `Except.ok` is a normal return of
`True` or `False` together with the final state and cache file. -/
def index_library (k0 k1 : Nat) (env : IndexEnv) (force : Bool)
    (s : LibState) (d : Disk) :
    Except (LibState × Disk) ((LibState × Disk) × Bool) :=
  if env.mountOk = false then .ok ((s, d), false)
  else if force = false ∧ env.now - 86400 < s.indexedTime ∧ s.albums ≠ [] then
    .ok ((s, d), true)
  else
    let s₁ := { s with library := [], albums := [], artists := [] }
    let s₂ := env.files.foldl (walk_step k0 k1) s₁
    if env.aggFails then .error (s₂, d)
    else
      let s₃ := organize_library s₂
      let s₄ := { s₃ with indexedTime := env.now }
      .ok ((s₄, cache_save s₄ d), true)

/-- One search result dict (lines 225-230). -/
structure SearchResult where
  key : Str
  name : Str
  artist : Str
  trackCount : Int
  deriving DecidableEq

/-- The relevance rank of lines 233-237: 0 for an exact case-insensitive
album-name match, 1 when the query is a substring of the lowercased album
name, 2 otherwise (the result then matched only via the artist name or
the album key).  `q` is the lowercased query. -/
def search_rank (q : Str) (x : SearchResult) : Nat :=
  if py_lower x.name = q then 0
  else if py_in q (py_lower x.name) then 1
  else 2

/-- The matching loop of `search_album` (lines 219-230), in dict
(insertion) order. -/
def search_matches (albums : List (Str × AlbumInfo)) (q : Str) : List SearchResult :=
  albums.filterMap (fun kv =>
    if py_in q kv.1 || py_in q (py_lower kv.2.name) || py_in q (py_lower kv.2.artist)
    then some ⟨kv.1, kv.2.name, kv.2.artist, kv.2.trackCount⟩
    else none)

/-- `search_album` (lines 213-239) applied to the album dict in effect
when the loop runs (when the dict is empty the code first re-indexes and
then searches the new dict; the loop and sort are as modelled here in
either case).  CPython `list.sort(key=...)` is a stable sort by the key. -/
def search_album (albums : List (Str × AlbumInfo)) (query : Str) : List SearchResult :=
  let q := py_lower query
  (search_matches albums q).insertionSort
    (fun x y => search_rank q x ≤ search_rank q y)

/-- The gathering loop of `get_album_tracks` (lines 247-251): the track
dicts of the album, in stored order, skipping ids absent from the track
dict. -/
def gather_album_tracks (s : LibState) (albumKey : Str) : List TrackInfo :=
  match dlookup albumKey s.albums with
  | none => []
  | some al => al.tracks.filterMap (fun tid => dlookup tid s.library)

/-- `get_album_tracks` (lines 241-253): the gathered tracks, re-sorted
(stably) by track number. -/
def get_album_tracks (s : LibState) (albumKey : Str) : List TrackInfo :=
  if (dlookup albumKey s.albums).isSome = false then []
  else (gather_album_tracks s albumKey).insertionSort
    (fun a b => a.trackNumber ≤ b.trackNumber)

/-! ### Player (player.py)

The VLC backend calls (`list_player.play`, `pause`, `stop`, `next`,
`previous`, `audio_set_volume`) are external effects; the model tracks the
Python-side fields of the `Player` object plus the backend volume, which
is the one backend datum the Python code reads back.  Note `%` on `Int`
is Euclidean remainder, which agrees with the Python `%` operator on the
positive divisors used here. -/

/-- The playback state enum (player.py lines 11-14). -/
inductive PlayerState where
  | stopped
  | playing
  | paused
  deriving DecidableEq

/-- The album dict stored by `load_playlist`. -/
structure AlbumRef where
  name : Str
  artist : Str
  deriving DecidableEq

/-- The mutable fields of a `Player` object (lines 31-35), plus the
backend volume. -/
structure PState where
  state : PlayerState
  currentAlbum : Option AlbumRef
  currentTrackIndex : Int
  currentPlaylist : List TrackInfo
  volume : Int
  deriving DecidableEq

/-- `Player.stop` (lines 157-162). -/
def player_stop (s : PState) : PState × Bool :=
  ({ s with state := .stopped }, true)

/-- `Player.load_playlist` (lines 105-127): stop, replace the playlist,
reset the index to 0. -/
def load_playlist (album : AlbumRef) (tracks : List TrackInfo) (s : PState) :
    PState × Bool :=
  let s₁ := (player_stop s).1
  ({ s₁ with currentAlbum := some album, currentPlaylist := tracks,
             currentTrackIndex := 0 }, true)

/-- `Player.play` (lines 129-146): failure on an empty playlist; else
resume (when paused) or start at the current index — in both branches the
only field change is `state := PLAYING`, and `current_track_index` is not
touched. -/
def player_play (s : PState) : PState × Bool :=
  if s.currentPlaylist = [] then (s, false)
  else ({ s with state := .playing }, true)

/-- `Player.pause` (lines 148-155): pause only from PLAYING, else return
`False` and change nothing. -/
def player_pause (s : PState) : PState × Bool :=
  if s.state = .playing then ({ s with state := .paused }, true)
  else (s, false)

/-- `Player.next_track` (lines 164-172). -/
def next_track (s : PState) : PState × Bool :=
  if s.currentPlaylist = [] ∨ s.currentPlaylist.length ≤ 1 then (s, false)
  else ({ s with currentTrackIndex :=
            (s.currentTrackIndex + 1) % (s.currentPlaylist.length : Int) }, true)

/-- `Player.previous_track` (lines 174-182). -/
def previous_track (s : PState) : PState × Bool :=
  if s.currentPlaylist = [] ∨ s.currentPlaylist.length ≤ 1 then (s, false)
  else ({ s with currentTrackIndex :=
            (s.currentTrackIndex - 1) % (s.currentPlaylist.length : Int) }, true)

/-- `Player.set_volume` (lines 184-189): clamp to `[0, 100]` and apply. -/
def set_volume (v : Int) (s : PState) : PState × Bool :=
  ({ s with volume := max 0 (min 100 v) }, true)

/-- `Player._on_media_end` (lines 97-103): when playing, advance the
index and wrap to 0 past the end. -/
def on_media_end (s : PState) : PState :=
  if s.state = .playing then
    let i := s.currentTrackIndex + 1
    if (s.currentPlaylist.length : Int) ≤ i then { s with currentTrackIndex := 0 }
    else { s with currentTrackIndex := i }
  else s

/-- The player operations that can follow a `load_playlist` (the alphabet
of claim C10). -/
inductive PlayerOp where
  | play
  | pause
  | stop
  | next
  | prev
  | setVolume (v : Int)
  | mediaEnd
  deriving DecidableEq

/-- Apply one operation to the player state. -/
def player_step (s : PState) : PlayerOp → PState
  | .play => (player_play s).1
  | .pause => (player_pause s).1
  | .stop => (player_stop s).1
  | .next => (next_track s).1
  | .prev => (previous_track s).1
  | .setVolume v => (set_volume v s).1
  | .mediaEnd => on_media_end s

/-- The index invariant of claim C10. -/
def player_inv (s : PState) : Prop :=
  0 ≤ s.currentTrackIndex ∧ s.currentTrackIndex < (s.currentPlaylist.length : Int)

instance (s : PState) : Decidable (player_inv s) := by
  unfold player_inv; infer_instance

/-! ### Helper lemmas -/

/-- A path pattern that occurs nowhere in a string is not touched by
the replacement scan, whatever the fuel. -/
theorem py_replace_go_of_no_occurrence :
    ∀ (fuel : Nat) (s pat : Str), ¬ pat <:+: s → py_replace_go fuel s pat = s := by
  intro fuel
  induction fuel with
  | zero => intro s pat _; rfl
  | succ fuel ih =>
    intro s pat hni
    cases s with
    | nil => rfl
    | cons c rest =>
      rw [py_replace_go]
      have hcond : ¬ (pat ≠ [] ∧ pat <+: (c :: rest)) := by
        rintro ⟨-, t, ht⟩
        exact hni ⟨[], t, by simpa using ht⟩
      rw [if_neg hcond, ih rest pat (fun hmem => hni (List.infix_cons hmem))]

/-- A path pattern that occurs nowhere in a string is not touched by
`py_replace`. -/
theorem py_replace_of_no_occurrence (s pat : Str) (hni : ¬ pat <:+: s) :
    py_replace s pat = s :=
  py_replace_go_of_no_occurrence s.length s pat hni

/-- Deleting a pattern from a string that starts with it and otherwise
does not contain it yields the remainder. -/
theorem py_replace_prefix {pat rest : Str} (hne : pat ≠ [])
    (hni : ¬ pat <:+: rest) : py_replace (pat ++ rest) pat = rest := by
  rcases pat with _ | ⟨p, ps⟩
  · exact absurd rfl hne
  · show py_replace_go (p :: ps ++ rest).length (p :: (ps ++ rest)) (p :: ps) = rest
    have hlen : (p :: ps ++ rest).length = (ps ++ rest).length + 1 := by simp
    rw [hlen, py_replace_go,
      if_pos ⟨hne, List.prefix_append (p :: ps) rest⟩]
    rw [show (p :: (ps ++ rest)).drop (p :: ps).length = rest from
      List.drop_left (p :: ps) rest]
    exact py_replace_go_of_no_occurrence (ps ++ rest).length rest (p :: ps) hni

/-- Join path components with `/` separators (no leading or trailing
separator). -/
def slash_join : List Str → Str
  | [] => []
  | [c] => c
  | c :: c₂ :: rest => c ++ '/' :: slash_join (c₂ :: rest)

/-- Splitting a separator-free component list joined by `/` recovers the
components. -/
theorem splitOn_slash_join :
    ∀ (cs : List Str), (∀ c ∈ cs, ('/' : Char) ∉ c) → cs ≠ [] →
      (slash_join cs).splitOn '/' = cs := by
  intro cs
  induction cs with
  | nil => intro _ hne; exact absurd rfl hne
  | cons c rest ih =>
    intro hmem _
    cases rest with
    | nil =>
      have : c.splitOn '/' = [c] := by
        apply List.splitOnP_eq_single
        intro x hx
        simp only [beq_iff_eq]
        intro hxeq
        exact hmem c (List.mem_singleton.mpr rfl) (hxeq ▸ hx)
      simpa [slash_join] using this
    | cons c₂ rest₂ =>
      have hstep : ((c ++ '/' :: slash_join (c₂ :: rest₂)).splitOnP (fun a => a == '/')) =
          c :: ((slash_join (c₂ :: rest₂)).splitOnP (fun a => a == '/')) := by
        apply List.splitOnP_first
        · intro x hx
          simp only [beq_iff_eq]
          intro hxeq
          exact hmem c (by simp) (hxeq ▸ hx)
        · simp
      have ihr := ih (fun d hd => hmem d (List.mem_cons_of_mem c hd)) (by simp)
      simp only [slash_join, List.splitOn] at *
      rw [hstep, ihr]

/-- Splitting a string with a leading separator produces a leading empty
component. -/
theorem splitOn_leading_slash (s : Str) :
    (('/' : Char) :: s).splitOn '/' = [] :: s.splitOn '/' := by
  simp [List.splitOn, List.splitOnP_cons]

/-- A stable sort by a key is sorted by that key. -/
theorem insertionSort_key_pairwise [LinearOrder β] (k : α → β) (l : List α) :
    (l.insertionSort (fun a b => k a ≤ k b)).Pairwise (fun a b => k a ≤ k b) :=
  @List.sorted_insertionSort α (fun a b => k a ≤ k b)
    (fun a b => inferInstanceAs (Decidable (k a ≤ k b)))
    ⟨fun a b => le_total (k a) (k b)⟩
    ⟨fun a b c => le_trans⟩ l

/-- Stability of a sort by a key, as equality of the fibers: the elements
with any fixed key value appear in the output exactly as in the input. -/
theorem insertionSort_key_filter [LinearOrder β] (k : α → β) (l : List α) (n : β) :
    (l.insertionSort (fun a b => k a ≤ k b)).filter (fun a => decide (k a = n)) =
      l.filter (fun a => decide (k a = n)) := by
  have hpw : (l.filter (fun a => decide (k a = n))).Pairwise (fun a b => k a ≤ k b) := by
    apply List.pairwise_of_forall_mem_list
    intro a ha b hb
    have hka : k a = n := by simpa using (List.of_mem_filter ha)
    have hkb : k b = n := by simpa using (List.of_mem_filter hb)
    rw [hka, hkb]
  have hsub : List.Sublist (l.filter (fun a => decide (k a = n)))
      (l.insertionSort (fun a b => k a ≤ k b)) :=
    List.sublist_insertionSort hpw (List.filter_sublist l)
  have hsub₂ := hsub.filter (fun a => decide (k a = n))
  have hff : (l.filter (fun a => decide (k a = n))).filter (fun a => decide (k a = n)) =
      l.filter (fun a => decide (k a = n)) := by
    simp [List.filter_filter]
  rw [hff] at hsub₂
  have hperm : List.Perm
      ((l.insertionSort (fun a b => k a ≤ k b)).filter (fun a => decide (k a = n)))
      (l.filter (fun a => decide (k a = n))) :=
    (List.perm_insertionSort (fun a b => k a ≤ k b) l).filter (fun a => decide (k a = n))
  exact (hsub₂.eq_of_length (hperm.length_eq.symm)).symm

/-- Looking a key up after mapping the values maps the lookup result. -/
theorem dlookup_map_value (g : β → γ) (k : Str) :
    ∀ l : List (Str × β),
      dlookup k (l.map (fun kv => (kv.1, g kv.2))) = (dlookup k l).map g := by
  intro l
  induction l with
  | nil => rfl
  | cons kv rest ih =>
    by_cases hk : kv.1 = k
    · simp [dlookup, hk]
    · simp [dlookup, hk, ih]

/-! ### Claim C1 (cache round-trip) -/

/-- A one-file indexing environment used to exhibit the cache failure. -/
def c1_env : IndexEnv :=
  { mountOk := true, now := 1700000000, aggFails := false,
    files := [{ path := "/home/jay/music_server/Artist/Album/01 - Song.flac".data,
                name := "01 - Song.flac".data, size := 1000,
                tags := some { album := "Album".data, artist := "Artist".data,
                               title := "Song".data, trackNumber := 1,
                               duration := 100 } }] }

/-- The library produced by indexing that environment. -/
def c1_lib : LibState :=
  match index_library 0 0 c1_env true empty_lib none with
  | .ok (sd, _) => sd.1
  | .error _ => empty_lib

/-- C1: the cache round-trip `load(save(L)) == L` FAILS for the library the
indexer itself builds.  `_organize_library` stores each artist album set
as a Python `set` (music_library.py line 202), `json.dump` has no encoder
for sets and raises `TypeError` mid-stream, `save` catches and logs it
(config.py lines 69-70) leaving a truncated, unparseable file, and the
next `load` therefore returns the empty dict: `load(save(L))` is the
empty library although `L` has non-empty tracks, albums and artists. -/
theorem cache_round_trip_fails_on_sets :
    c1_lib.library ≠ [] ∧ c1_lib.albums ≠ [] ∧ c1_lib.artists ≠ []
    ∧ encode_cache_data c1_lib = none
    ∧ cache_save c1_lib none = some none
    ∧ cache_load (cache_save c1_lib none) = Json.obj []
    ∧ is_empty_dict (cache_load (cache_save c1_lib none)) = true :=
  ⟨by decide, by decide, by decide, rfl, rfl, rfl, rfl⟩

/-! ### Claim C2 (aggregation error handling) -/

/-- A previously indexed in-memory library (as after a cache load). -/
def c2_prev : LibState :=
  { library := [("42".data,
      { path := "/home/jay/music_server/Old/Rec/1.flac".data,
        filename := "1.flac".data, size := 10, album := "Rec".data,
        artist := "Old".data, title := "t".data, trackNumber := 1,
        duration := 9 })],
    albums := [("old - rec".data,
      { name := "Rec".data, artist := "Old".data, tracks := ["42".data],
        trackCount := 1 })],
    artists := [("old".data,
      { name := "Old".data, albums := ⟨["old - rec".data]⟩,
        tracks := ["42".data] })],
    indexedTime := 1000 }

/-- The previously persisted cache file. -/
def c2_disk : Disk := some (some (Json.obj []))

/-- An environment whose aggregation phase raises. -/
def c2_env : IndexEnv :=
  { mountOk := true, now := 1700000000, aggFails := true,
    files := [{ path := "/home/jay/music_server/Artist/Album/01 - Song.flac".data,
                name := "01 - Song.flac".data, size := 1000,
                tags := some { album := "Album".data, artist := "Artist".data,
                               title := "Song".data, trackNumber := 1,
                               duration := 100 } }] }

/-- The object state at the moment the aggregation exception escapes. -/
def c2_escaped_state : LibState :=
  match index_library 0 0 c2_env true c2_prev c2_disk with
  | .error sd => sd.1
  | .ok _ => empty_lib

/-- C2: an unexpected error in the aggregation phase does NOT produce a
reported failure with the old state intact.  `_organize_library()` is
called outside any try/except (music_library.py line 87), so the
exception escapes `index_library` (the model result is `Except.error`,
not a `False` return), and the object keeps the partially built state
from the walk — the previous in-memory library was already cleared at
lines 66-68.  Only the cache file survives untouched. -/
theorem index_library_aggregation_error_escapes :
    index_library 0 0 c2_env true c2_prev c2_disk = .error (c2_escaped_state, c2_disk)
    ∧ c2_escaped_state ≠ c2_prev
    ∧ c2_escaped_state.library ≠ []
    ∧ c2_escaped_state.albums = [] :=
  ⟨rfl, by decide, by decide, by decide⟩

/-! ### Claim C3 (track id stability) -/

/-- An audio file path as seen by the indexer. -/
def c3_path : Str := "/home/jay/music_server/Artist/Album/01 - Song.flac".data

/-- C3: the track id is NOT a function of the absolute path alone.  The id
is `str(hash(file_path))` and CPython salts the string hash with the
per-process hash secret, so two interpreter processes (two program runs)
assign different ids to the same path: here the secrets `(0, 0)` and
`(0, 1)` already disagree. -/
theorem track_id_depends_on_hash_seed :
    track_id_of 0 0 c3_path ≠ track_id_of 0 1 c3_path := by decide

/-! ### Claim C4 (cache load robustness) -/

/-- C4 counterexample: persisted data that is valid JSON but structurally
invalid as a library — here the JSON array `[]` — is returned as-is by
`load`, not replaced by an empty library: only `json.JSONDecodeError` is
caught (config.py line 59), and no shape validation is performed. -/
theorem cache_load_nondict_passthrough :
    cache_load (some (some (Json.arr []))) = Json.arr []
    ∧ is_dict (Json.arr []) = false
    ∧ is_empty_dict (Json.arr []) = false :=
  ⟨rfl, rfl, rfl⟩

/-- C4 amended: `load` returns the empty dict when no cache file exists
and when the file contents fail to parse as JSON (the decode error is
caught and logged, not raised); any value that does parse is returned
unchanged, without structural validation. -/
theorem cache_load_amended :
    cache_load none = Json.obj []
    ∧ cache_load (some none) = Json.obj []
    ∧ ∀ j : Json, cache_load (some (some j)) = j :=
  ⟨rfl, rfl, fun _ => rfl⟩

/-! ### Claim C5 (metadata fallback from path segments) -/

/-- C5 counterexample: a file whose path relative to the mount root has
only 2 components.  Deleting `str(MOUNT_POINT)` from the absolute path
leaves a leading `/`, so `split(os.sep)` yields a leading empty component
and the `len(parts) >= 3` guard passes: the album field is set to the
parent directory name instead of staying empty. -/
theorem metadata_fallback_two_component_counterexample :
    (("Artist/Track.flac".data : Str).splitOn '/').length = 2
    ∧ metadata_fallback "/home/jay/music_server/Artist/Track.flac".data [] []
        = ("Artist".data, [])
    ∧ ("Artist".data : Str) ≠ [] :=
  ⟨by decide, by decide, by decide⟩

/-- C5 amended: for a file at mount-relative components `cs` (none of
which contains a separator, and whose joined relative path does not
itself contain the mount-point string), the fallback behaves as claimed
when `cs` has at least 3 components — third-from-last becomes artist and
second-from-last becomes album, each only if still empty — but when `cs`
has exactly 2 components the album (if empty) is set to the first
component, the parent directory, while the artist stays empty; only
1-component paths keep both fields unchanged. -/
theorem metadata_fallback_amended :
    ∀ (cs : List Str) (album artist : Str),
      (∀ c ∈ cs, ('/' : Char) ∉ c) → cs ≠ [] →
      ¬ MOUNT <:+: ('/' :: slash_join cs) →
      metadata_fallback (MOUNT ++ ('/' :: slash_join cs)) album artist =
        (if 3 ≤ cs.length then
          (if album = [] then cs.getD (cs.length - 2) [] else album,
           if artist = [] then cs.getD (cs.length - 3) [] else artist)
         else if cs.length = 2 then
          (if album = [] then cs.getD 0 [] else album, artist)
         else (album, artist)) := by
  intro cs album artist hcs hne hni
  have hmne : (MOUNT : Str) ≠ [] := by decide
  have hrepl : py_replace (MOUNT ++ ('/' :: slash_join cs)) MOUNT
      = '/' :: slash_join cs := py_replace_prefix hmne hni
  have hsplit : (('/' :: slash_join cs) : Str).splitOn '/' = [] :: cs := by
    rw [splitOn_leading_slash, splitOn_slash_join cs hcs hne]
  rcases cs with _ | ⟨a, _ | ⟨b, _ | ⟨c, t⟩⟩⟩
  · exact absurd rfl hne
  · by_cases hal : album = [] <;> by_cases har : artist = [] <;>
      simp [metadata_fallback, hrepl, hsplit, hal, har]
  · by_cases hal : album = [] <;> by_cases har : artist = [] <;>
      simp [metadata_fallback, hrepl, hsplit, hal, har, List.getD]
  · have e1 : (([] : Str) :: (a :: b :: c :: t)).length - 3
        = ((a :: b :: c :: t).length - 3) + 1 := by
      simp only [List.length_cons]; omega
    have e2 : (([] : Str) :: (a :: b :: c :: t)).length - 2
        = ((a :: b :: c :: t).length - 2) + 1 := by
      simp only [List.length_cons]; omega
    by_cases hal : album = [] <;> by_cases har : artist = [] <;>
      simp [metadata_fallback, hrepl, hsplit, hal, har, e1, e2,
        List.getD_cons_succ, List.getD] <;>
      rw [List.getElem?_eq_getElem
        (show t.length < (a :: b :: c :: t).length by simp; omega)] <;>
      simp

/-- Witness for the amended C5 theorem at the concrete layout
`Artist/Album/Track`: with 3 components and empty tags, artist and album
are derived from the path. -/
theorem metadata_fallback_amended_witness :
    metadata_fallback
        (MOUNT ++ ('/' :: slash_join ["A".data, "B".data, "t.flac".data])) [] []
      = ("B".data, "A".data) := by
  rw [metadata_fallback_amended ["A".data, "B".data, "t.flac".data] [] []
    (by decide) (by decide) (by decide)]
  decide

/-! ### Claim C6 (search ranking) -/

/-- C6: for every album dict and query, `search_album` returns the
matching albums ordered by ascending rank (0 exact case-insensitive album
name match, 1 query a substring of the lowercased album name, 2 match
only via artist or key), with ties in the original dict (insertion)
order: the output is rank-sorted, each rank fiber equals the fiber of the
unsorted match list, and the output is a permutation of the match list. -/
theorem search_album_ranking :
    ∀ (albums : List (Str × AlbumInfo)) (query : Str),
      (search_album albums query).Pairwise
        (fun x y => search_rank (py_lower query) x ≤ search_rank (py_lower query) y)
      ∧ (∀ r : Nat,
          (search_album albums query).filter
              (fun x => decide (search_rank (py_lower query) x = r))
            = (search_matches albums (py_lower query)).filter
              (fun x => decide (search_rank (py_lower query) x = r)))
      ∧ List.Perm (search_album albums query)
          (search_matches albums (py_lower query)) := by
  intro albums query
  refine ⟨?_, ?_, ?_⟩
  · exact insertionSort_key_pairwise (search_rank (py_lower query))
      (search_matches albums (py_lower query))
  · intro r
    exact insertionSort_key_filter (search_rank (py_lower query))
      (search_matches albums (py_lower query)) r
  · exact List.perm_insertionSort _ _

/-! ### Claim C7 (freshness gate idempotence) -/

/-- C7: if the first `index_library(force=False)` call succeeds and
performs the scan (stamping `indexed_time` with its wall-clock time) and
indexes at least one album, then a second `index_library(force=False)`
call less than 24 hours later, with the mount available, is a no-op
success: it returns `True` and leaves the in-memory library and cache
file exactly as the first call left them. -/
theorem index_library_freshness_idempotent :
    ∀ (k0 k1 : Nat) (env₁ env₂ : IndexEnv) (s₀ s₁ : LibState) (d₀ d₁ : Disk),
      index_library k0 k1 env₁ false s₀ d₀ = .ok ((s₁, d₁), true) →
      s₁.indexedTime = env₁.now →
      env₂.mountOk = true →
      env₂.now - env₁.now < 86400 →
      s₁.albums ≠ [] →
      index_library k0 k1 env₂ false s₁ d₁ = .ok ((s₁, d₁), true) := by
  intro k0 k1 env₁ env₂ s₀ s₁ d₀ d₁ h₁ ht hm hf ha
  have hgate : env₂.now - 86400 < s₁.indexedTime := by omega
  simp [index_library, hm, ha, hgate]

/-- Environment of the first indexing call in the C7 witness. -/
def c7_env1 : IndexEnv :=
  { mountOk := true, now := 1700000000, aggFails := false,
    files := [{ path := "/home/jay/music_server/Band/Disc/02 - Tune.flac".data,
                name := "02 - Tune.flac".data, size := 2000,
                tags := some { album := "Disc".data, artist := "Band".data,
                               title := "Tune".data, trackNumber := 2,
                               duration := 120 } }] }

/-- Environment of the second call, 1000 seconds later. -/
def c7_env2 : IndexEnv :=
  { mountOk := true, now := 1700001000, aggFails := false, files := [] }

/-- Result of the first call. -/
def c7_run : Except (LibState × Disk) ((LibState × Disk) × Bool) :=
  index_library 0 0 c7_env1 false empty_lib none

/-- Library after the first call. -/
def c7_s1 : LibState :=
  match c7_run with
  | .ok (sd, _) => sd.1
  | .error _ => empty_lib

/-- Cache file after the first call. -/
def c7_d1 : Disk :=
  match c7_run with
  | .ok (sd, _) => sd.2
  | .error _ => none

/-- Witness for C7: a concrete one-file index at time 1700000000 followed
by a second non-forced call 1000 seconds later, which returns success and
the identical library and cache file. -/
theorem index_library_freshness_idempotent_witness :
    index_library 0 0 c7_env2 false c7_s1 c7_d1 = .ok ((c7_s1, c7_d1), true) :=
  index_library_freshness_idempotent 0 0 c7_env1 c7_env2 empty_lib c7_s1 none c7_d1
    rfl rfl rfl (by decide) (by decide)

/-! ### Claim C8 (album track ordering) -/

/-- C8: album track lists are sorted ascending by track number and the
sort is stable, both for the lists stored by `_organize_library` and for
the lists returned by `get_album_tracks`.  Sortedness is `Pairwise` on
the track-number key; stability says each fiber of tracks with one fixed
track number appears exactly in its pre-sort (first-discovered) order:
for the stored lists, relative to the grouping pass that appended ids in
discovery order; for `get_album_tracks`, relative to the gathered list in
stored order. -/
theorem album_tracks_sorted_and_stable :
    ∀ (s : LibState) (key : Str),
      (∀ al, dlookup key (organize_library s).albums = some al →
        al.tracks.Pairwise
          (fun i j => track_num_of s.library i ≤ track_num_of s.library j)
        ∧ ∀ al₀, dlookup key (organize_pass s).albums = some al₀ →
            ∀ n : Int,
              al.tracks.filter (fun i => decide (track_num_of s.library i = n))
                = al₀.tracks.filter (fun i => decide (track_num_of s.library i = n)))
      ∧ ((get_album_tracks s key).Pairwise
          (fun a b => a.trackNumber ≤ b.trackNumber)
        ∧ ∀ n : Int,
            (get_album_tracks s key).filter (fun a => decide (a.trackNumber = n))
              = (gather_album_tracks s key).filter (fun a => decide (a.trackNumber = n))) := by
  intro s key
  constructor
  · intro al hal
    have hmap : dlookup key (organize_library s).albums
        = (dlookup key (organize_pass s).albums).map
            (fun al₀ => { al₀ with tracks := (al₀.tracks.insertionSort
              (fun i j => track_num_of s.library i ≤ track_num_of s.library j)) }) := by
      simpa [organize_library, sort_album_tracks] using
        dlookup_map_value
          (fun al₀ : AlbumInfo => { al₀ with tracks := (al₀.tracks.insertionSort
            (fun i j => track_num_of s.library i ≤ track_num_of s.library j)) })
          key (organize_pass s).albums
    rw [hmap] at hal
    cases hlook : dlookup key (organize_pass s).albums with
    | none => rw [hlook] at hal; exact absurd hal (by simp)
    | some al₀ =>
      rw [hlook] at hal
      simp only [Option.map_some'] at hal
      constructor
      · injection hal with h
        rw [← h]
        exact insertionSort_key_pairwise (track_num_of s.library) al₀.tracks
      · intro al₁ hal₁ n
        injection hal₁ with h₁
        subst h₁
        injection hal with h
        rw [← h]
        exact insertionSort_key_filter (track_num_of s.library) al₀.tracks n
  · rw [get_album_tracks]
    cases hlook : (dlookup key s.albums).isSome with
    | false =>
      have hg : gather_album_tracks s key = [] := by
        rw [gather_album_tracks]
        cases hl : dlookup key s.albums with
        | none => rfl
        | some al => rw [hl] at hlook; simp at hlook
      simp [hg]
    | true =>
      rw [if_neg (by simp : ¬ ((true : Bool) = false))]
      exact ⟨insertionSort_key_pairwise (fun t : TrackInfo => t.trackNumber)
          (gather_album_tracks s key),
        fun n => insertionSort_key_filter (fun t : TrackInfo => t.trackNumber)
          (gather_album_tracks s key) n⟩

/-- A track used in the C8 witness library (track number 2, discovered
first). -/
def c8_track1 : TrackInfo :=
  { path := "p1".data, filename := "p1".data, size := 1, album := "B".data,
    artist := "A".data, title := "x".data, trackNumber := 2, duration := 0 }

/-- Second track, track number 1. -/
def c8_track2 : TrackInfo := { c8_track1 with path := "p2".data, trackNumber := 1 }

/-- Third track, also track number 1 (a tie, discovered after the
second). -/
def c8_track3 : TrackInfo := { c8_track1 with path := "p3".data, trackNumber := 1 }

/-- A concrete three-track library state before aggregation. -/
def c8_s : LibState :=
  { library := [("1".data, c8_track1), ("2".data, c8_track2), ("3".data, c8_track3)],
    albums := [], artists := [], indexedTime := 0 }

/-- The album key the three tracks share. -/
def c8_key : Str := "a - b".data

/-- The stored album after aggregation of the witness library. -/
def c8_al : AlbumInfo :=
  match dlookup c8_key (organize_library c8_s).albums with
  | some al => al
  | none => ⟨[], [], [], 0⟩

/-- The same album after the grouping pass, before the sort. -/
def c8_al0 : AlbumInfo :=
  match dlookup c8_key (organize_pass c8_s).albums with
  | some al => al
  | none => ⟨[], [], [], 0⟩

/-- Witness for C8 on the concrete three-track library (with a track
number tie between the second and third track). -/
theorem album_tracks_sorted_and_stable_witness :
    c8_al.tracks.Pairwise
      (fun i j => track_num_of c8_s.library i ≤ track_num_of c8_s.library j)
    ∧ c8_al.tracks.filter (fun i => decide (track_num_of c8_s.library i = 1))
        = c8_al0.tracks.filter (fun i => decide (track_num_of c8_s.library i = 1))
    ∧ (get_album_tracks c8_s c8_key).Pairwise
        (fun a b => a.trackNumber ≤ b.trackNumber)
    ∧ (get_album_tracks c8_s c8_key).filter (fun a => decide (a.trackNumber = 1))
        = (gather_album_tracks c8_s c8_key).filter (fun a => decide (a.trackNumber = 1)) := by
  have h := album_tracks_sorted_and_stable c8_s c8_key
  exact ⟨(h.1 c8_al rfl).1, (h.1 c8_al rfl).2 c8_al0 rfl 1, h.2.1, h.2.2 1⟩

/-! ### Claim C9 (pause and resume) -/

/-- C9: `pause()` from any state other than PLAYING returns `False` and
changes no field of the player; from PLAYING it moves exactly the state
field to PAUSED and returns `True`, and a following `play()` (with the
playlist non-empty, as it always is while playing) returns to PLAYING
without touching `current_track_index`. -/
theorem pause_play_state_machine :
    ∀ s : PState,
      (s.state ≠ .playing → player_pause s = (s, false))
      ∧ (s.state = .playing →
          player_pause s = ({ s with state := .paused }, true)
          ∧ (s.currentPlaylist ≠ [] →
              player_play (player_pause s).1 = ({ s with state := .playing }, true)
              ∧ ((player_play (player_pause s).1).1).currentTrackIndex
                  = s.currentTrackIndex)) := by
  intro s
  constructor
  · intro h
    simp [player_pause, h]
  · intro h
    refine ⟨by simp [player_pause, h], ?_⟩
    intro hp
    constructor
    · simp [player_pause, player_play, h, hp]
    · simp [player_pause, player_play, h, hp]

/-- A one-track playlist entry for the C9 and C10 witnesses. -/
def c9_track : TrackInfo :=
  { path := "p".data, filename := "p".data, size := 0, album := [],
    artist := [], title := [], trackNumber := 1, duration := 0 }

/-- A playing player on a two-track playlist, at index 1. -/
def c9_playing : PState :=
  { state := .playing, currentAlbum := none, currentTrackIndex := 1,
    currentPlaylist := [c9_track, c9_track], volume := 70 }

/-- The same player stopped. -/
def c9_stopped : PState := { c9_playing with state := .stopped }

/-- Witness for C9: pause from STOPPED fails without changes; pause from
PLAYING then play returns to PLAYING keeping index 1. -/
theorem pause_play_state_machine_witness :
    player_pause c9_stopped = (c9_stopped, false)
    ∧ player_pause c9_playing = ({ c9_playing with state := .paused }, true)
    ∧ player_play (player_pause c9_playing).1
        = ({ c9_playing with state := .playing }, true)
    ∧ ((player_play (player_pause c9_playing).1).1).currentTrackIndex
        = c9_playing.currentTrackIndex := by
  refine ⟨(pause_play_state_machine c9_stopped).1 (by decide), ?_, ?_, ?_⟩
  · exact ((pause_play_state_machine c9_playing).2 rfl).1
  · exact (((pause_play_state_machine c9_playing).2 rfl).2 (by decide)).1
  · exact (((pause_play_state_machine c9_playing).2 rfl).2 (by decide)).2

/-! ### Claim C10 (index invariant) -/

/-- One player operation keeps the index inside the playlist bounds. -/
theorem player_step_preserves_inv :
    ∀ (s : PState) (op : PlayerOp), player_inv s → player_inv (player_step s op) := by
  intro s op hs
  obtain ⟨h0, h1⟩ := hs
  cases op with
  | play =>
    simp only [player_step, player_play]
    by_cases h : s.currentPlaylist = []
    · rw [if_pos h]; exact ⟨h0, h1⟩
    · rw [if_neg h]; exact ⟨h0, h1⟩
  | pause =>
    by_cases h : s.state = PlayerState.playing <;>
      simp [player_step, player_pause, player_inv, h] <;> exact ⟨h0, h1⟩
  | stop => exact ⟨h0, h1⟩
  | next =>
    by_cases h : s.currentPlaylist = [] ∨ s.currentPlaylist.length ≤ 1
    · simpa [player_step, next_track, player_inv, h] using ⟨h0, h1⟩
    · have hpos : (0 : Int) < (s.currentPlaylist.length : Int) := by
        push_neg at h
        have := h.2
        omega
      simp only [player_step, next_track, if_neg h, player_inv]
      exact ⟨Int.emod_nonneg _ (by omega), Int.emod_lt_of_pos _ hpos⟩
  | prev =>
    by_cases h : s.currentPlaylist = [] ∨ s.currentPlaylist.length ≤ 1
    · simpa [player_step, previous_track, player_inv, h] using ⟨h0, h1⟩
    · have hpos : (0 : Int) < (s.currentPlaylist.length : Int) := by
        push_neg at h
        have := h.2
        omega
      simp only [player_step, previous_track, if_neg h, player_inv]
      exact ⟨Int.emod_nonneg _ (by omega), Int.emod_lt_of_pos _ hpos⟩
  | setVolume v => exact ⟨h0, h1⟩
  | mediaEnd =>
    simp only [player_step, on_media_end]
    by_cases h : s.state = PlayerState.playing
    · rw [if_pos h]
      by_cases hw : (s.currentPlaylist.length : Int) ≤ s.currentTrackIndex + 1
      · rw [if_pos hw]
        exact ⟨le_refl 0,
          by show (0 : Int) < (s.currentPlaylist.length : Int); omega⟩
      · rw [if_neg hw]
        exact ⟨by show (0 : Int) ≤ s.currentTrackIndex + 1; omega,
          by show s.currentTrackIndex + 1 < (s.currentPlaylist.length : Int); omega⟩
    · rw [if_neg h]; exact ⟨h0, h1⟩

/-- Iterating player operations preserves the index invariant. -/
theorem player_foldl_inv :
    ∀ (l : List PlayerOp) (s : PState),
      player_inv s → player_inv (l.foldl player_step s) := by
  intro l
  induction l with
  | nil => intro s hs; exact hs
  | cons op rest ih =>
    intro s hs
    rw [List.foldl_cons]
    exact ih _ (player_step_preserves_inv s op hs)

/-- C10: after `load_playlist` with a non-empty track list, every
sequence of player operations (play, pause, stop, next, previous,
set-volume, and the end-of-track callback) keeps
`0 <= current_track_index < len(current_playlist)`. -/
theorem player_index_invariant :
    ∀ (album : AlbumRef) (tracks : List TrackInfo) (s₀ : PState)
      (ops : List PlayerOp),
      tracks ≠ [] →
      player_inv (ops.foldl player_step (load_playlist album tracks s₀).1) := by
  intro album tracks s₀ ops hne
  have h0 : player_inv (load_playlist album tracks s₀).1 := by
    constructor
    · simp [load_playlist, player_stop]
    · have hpos := List.length_pos.mpr hne
      simp only [load_playlist, player_stop]
      exact_mod_cast hpos
  exact player_foldl_inv ops _ h0

/-- Witness for C10: a concrete operation sequence on a two-track
playlist (including a wrap-around at the end of the playlist and an
out-of-range volume request) keeps the index in bounds. -/
theorem player_index_invariant_witness :
    player_inv ([PlayerOp.play, PlayerOp.mediaEnd, PlayerOp.mediaEnd,
        PlayerOp.next, PlayerOp.prev, PlayerOp.pause, PlayerOp.setVolume 150,
        PlayerOp.stop].foldl player_step
      (load_playlist ⟨"B".data, "A".data⟩ [c9_track, c9_track] c9_stopped).1) :=
  player_index_invariant ⟨"B".data, "A".data⟩ [c9_track, c9_track] c9_stopped
    [PlayerOp.play, PlayerOp.mediaEnd, PlayerOp.mediaEnd, PlayerOp.next,
     PlayerOp.prev, PlayerOp.pause, PlayerOp.setVolume 150, PlayerOp.stop]
    (by decide)
